import Mathlib

/-!
Shallow embedding of `src/watershed.py` (CreateWatershed).

The script is a linear arcpy pipeline.  We model it as a pure generator of a
trace of geoprocessing events, parametrised by an environment `Env` that
supplies the facts the script reads from the outside world: the directory tree
under the `grid` folder, whether a file geodatabase already exists at
`play_folder/out_geo` (and what it contains), and the `meanCellHeight` values
of the children of a described raster.  Machine floats of the original
(latitude, longitude, cell heights) are modelled as `Int`: the script never
computes with them except for one multiplication, which is representation
independent.  The `try/except` wrapper (lines 45, 128-131) is modelled
separately by `create_watershed_outcome` over the exception the body raised,
if any.
-/

/-- Model of `os.path.join` for the two-argument calls in the script. -/
def pathJoin (a b : String) : String := a ++ "/" ++ b

/-- Line 11: `sr = arcpy.SpatialReference(4326)`, modelled by its EPSG code. -/
def sr : Nat := 4326

/-- Line 12: `sr_p = arcpy.SpatialReference(3395)`, modelled by its EPSG code. -/
def sr_p : Nat := 3395

/-- One entry of the `coordinates` list: a dictionary with keys `stname`,
`lat` and `lng`. -/
structure Coord where
  stname : String
  lat : Int
  lng : Int
deriving DecidableEq

/-- A raster dataset sitting in a directory, with the type string that
`arcpy.ListRasters("*", type_of_raster)` filters on. -/
structure RasterFile where
  name : String
  rtype : String
deriving DecidableEq

/-- A directory: the rasters stored directly in it and its named
subdirectories.  This is what `os.walk` traverses. -/
inductive DirTree where
  | node (rasters : List RasterFile) (subdirs : List (String × DirTree))

/-- Rasters stored directly in a directory. -/
def DirTree.rasters : DirTree → List RasterFile
  | .node rs _ => rs

/-- Named subdirectories of a directory. -/
def DirTree.subdirs : DirTree → List (String × DirTree)
  | .node _ sd => sd

/-- Line 148: `arcpy.ListRasters("*", type_of_raster)` on a workspace
directory: the names of the rasters of the requested type. -/
def listRasters (type_of_raster : String) (t : DirTree) : List String :=
  (t.rasters.filter (fun r => r.rtype == type_of_raster)).map RasterFile.name

mutual

/-- Model of `os.walk(grid)` (top-down): every directory of the tree paired
with its absolute path, the root first, then each subtree in order. -/
def walkDirs (p : String) : DirTree → List (String × DirTree)
  | .node rs sd => (p, .node rs sd) :: walkSubdirs p sd

/-- Walk of a list of named subdirectories of the directory at path `p`. -/
def walkSubdirs (p : String) : List (String × DirTree) → List (String × DirTree)
  | [] => []
  | (n, c) :: rest => walkDirs (pathJoin p n) c ++ walkSubdirs p rest

end

/-- Lines 144-150, inner loop body over one yield of `os.walk`: for each
subdirectory name of the walked directory, list the rasters of the requested
type there and record their full paths. -/
def walkContrib (type_of_raster : String) (wd : String × DirTree) : List String :=
  wd.2.subdirs.flatMap
    (fun sub => (listRasters type_of_raster sub.2).map
      (fun raster => pathJoin (pathJoin wd.1 sub.1) raster))

/-- Lines 142-150: the `rasters_to_add` list built by looping over
`os.walk(grid)` and, for each walked directory, over its subdirectories. -/
def rasters_to_add (type_of_raster grid : String) (t : DirTree) : List String :=
  (walkDirs grid t).flatMap (walkContrib type_of_raster)

mutual

/-- Rasters of the requested type in the directory at path `p` and in all of
its descendants, with full paths.  This is the reading of the spec sentence
that the mosaic merges all tiles found under the grid folder. -/
def allDirRasters (type_of_raster : String) : String → DirTree → List String
  | p, .node rs sd =>
      (listRasters type_of_raster (.node rs sd)).map (fun r => pathJoin p r) ++
      allSubdirList type_of_raster p sd

/-- Rasters of the requested type in a list of named subdirectories of the
directory at path `p`, including all of their descendants. -/
def allSubdirList (type_of_raster : String) : String → List (String × DirTree) → List String
  | _, [] => []
  | p, (n, c) :: rest =>
      allDirRasters type_of_raster (pathJoin p n) c ++ allSubdirList type_of_raster p rest

end

/-- Rasters of the requested type in every subdirectory reached by a recursive
walk of the directory at path `p` (every strict descendant of the root). -/
def allSubdirRasters (type_of_raster p : String) (t : DirTree) : List String :=
  allSubdirList type_of_raster p t.subdirs

/-- Environment read by the script. `gdb0` is the content listing of a file
geodatabase already present at `play_folder/out_geo` before the run (`none`
when `arcpy.Exists` is false there); `childMeanCellHeights p` lists
`meanCellHeight` of each child of `arcpy.Describe(p)`. -/
structure Env where
  gridTree : DirTree
  gdb0 : Option (List String)
  childMeanCellHeights : String → List Int

/-- Line 111: `arcpy.Describe(path).children[0].meanCellHeight`.  Python
raises IndexError when the children list is empty; the model totalises that
case with 0, which no theorem below relies on. -/
def firstChildMeanCellHeight (env : Env) (path : String) : Int :=
  (env.childMeanCellHeights path).headD 0

/-- Geoprocessing events the script can emit, in source order of their call
sites.  Saving an operation result is folded into the operation event as its
`savedAs` component. -/
inductive Event where
  | setWorkspace (path : String)
  | checkOutExtension (ext : String)
  | deleteManagement (path : String)
  | createFileGDB (folder name : String)
  | mosaicToNewRaster (inputs : List String) (outLocation rasterName : String)
      (numberOfBands : Nat) (pixelType mosaicMethod : String) (srid : Nat)
  | fill (input savedAs : String)
  | flowDirection (input savedAs : String)
  | flowAccumulation (input savedAs : String)
  | rasterCalculatorGreater (rasterRef : String) (threshold : Int) (output : String)
  | createFeatureclass (outPath outName geometryType : String) (srid : Nat)
  | addField (table field ftype : String)
  | point (x y : Int)
  | pointGeometry (x y : Int) (srid : Nat)
  | describe (path : String)
  | snapPourPoint (accumRaster : String) (tolerance : Int) (savedAs : String)
  | watershed (fdRaster pourRaster : String)
  | rasterToPolygon (output : String)
  | insertRow (name : String) (x y : Int) (srid : Nat)
deriving DecidableEq

/-- Lines 135-161, `combine_rasters`: delete the geodatabase at
`play_folder/out_geo` when it exists, create a fresh one, and mosaic the
collected rasters into it under `mosaic_name` (1 band, 32 bit float, mosaic
method LAST, coordinate system `sr_p`). -/
def combine_rasters (env : Env) (grid play_folder out_geo type_of_raster mosaic_name : String) :
    List Event :=
  (if (env.gdb0).isSome then [Event.deleteManagement (pathJoin play_folder out_geo)] else []) ++
  [Event.createFileGDB play_folder out_geo,
   Event.mosaicToNewRaster (rasters_to_add type_of_raster grid env.gridTree)
     (pathJoin play_folder out_geo) mosaic_name 1 "32_BIT_FLOAT" "LAST" sr_p]

/-- Lines 152-156 as a transformer of the geodatabase content listing at
`play_folder/out_geo`: delete it when it exists, create an empty one, add the
new mosaic. -/
def combine_rasters_gdb (prior : Option (List String)) (mosaic_name : String) :
    Option (List String) :=
  let afterDelete : Option (List String) := if prior.isSome then none else prior
  let afterCreate : List String := afterDelete.getD []
  some (afterCreate ++ [mosaic_name])

/-- Lines 106-123, one iteration of the loop over `coordinates`: build the
point from (lng, lat), wrap it with spatial reference `sr`, describe the flow
accumulation raster to get the snapping distance, snap the pour point and save
it as `"snapped"+stname`, delineate the watershed from the flow direction
raster and the snapped raster, convert it to the polygon class
`"shed"+stname`, and insert the named point (spatial reference `sr`) into the
multipoint feature class. -/
def shedIteration (env : Env) (combined : String) (snapping_tolerance : Int) (c : Coord) :
    List Event :=
  let tol := firstChildMeanCellHeight env (combined ++ "_fa") * snapping_tolerance
  [Event.point c.lng c.lat,
   Event.pointGeometry c.lng c.lat sr,
   Event.describe (combined ++ "_fa"),
   Event.snapPourPoint (combined ++ "_fa") tol ("snapped" ++ c.stname),
   Event.watershed (combined ++ "_fd") ("snapped" ++ c.stname),
   Event.rasterToPolygon ("shed" ++ c.stname),
   Event.insertRow c.stname c.lng c.lat sr]

/-- The `for coord in coordinates` loop of lines 106-123, in list order. -/
def watershedLoop (env : Env) (combined : String) (snapping_tolerance : Int) :
    List Coord → List Event
  | [] => []
  | c :: rest =>
      shedIteration env combined snapping_tolerance c ++
      watershedLoop env combined snapping_tolerance rest

/-- Lines 45-126, the body of `create_watershed` as an event trace (the run
in which no arcpy call raises).  `combined = play_folder/out_geo/mosaic_name`;
steps 0-4 are guarded by `stage` exactly as the `if stage < k` tests of the
source; step 4 passes the raster-calculator expression
`"combine_fa" > stream_accumulation_number`, whose referenced raster name is
the string literal `combine_fa` of line 93; step 5 always runs.  Parameter
defaults of the source (stage=0, out_geo="merge.gdb", type_of_raster="GRID",
mosaic_name="combine", stream_accumulation_number=5000, snapping_tolerance=2)
are passed explicitly here. -/
def create_watershed (env : Env) (grid : String) (coordinates : List Coord)
    (play_folder : String) (stage : Int) (out_geo type_of_raster mosaic_name : String)
    (stream_accumulation_number snapping_tolerance : Int) : List Event :=
  let combined := pathJoin (pathJoin play_folder out_geo) mosaic_name
  let workspace := pathJoin play_folder out_geo
  [Event.setWorkspace workspace, Event.checkOutExtension "Spatial"] ++
  (if stage < 1 then combine_rasters env grid play_folder out_geo type_of_raster mosaic_name
   else []) ++
  (if stage < 2 then [Event.fill mosaic_name (combined ++ "_fill")] else []) ++
  (if stage < 3 then [Event.flowDirection (combined ++ "_fill") (combined ++ "_fd")] else []) ++
  (if stage < 4 then [Event.flowAccumulation (combined ++ "_fd") (combined ++ "_fa")] else []) ++
  (if stage < 5 then
    [Event.rasterCalculatorGreater "combine_fa" stream_accumulation_number
      (combined ++ "_stream")]
   else []) ++
  [Event.createFeatureclass workspace "points" "MULTIPOINT" sr_p,
   Event.addField "points" "name" "TEXT"] ++
  watershedLoop env combined snapping_tolerance coordinates

/-- Exceptions relevant to the wrapper: `arcpy.ExecuteError`, and any other
`Exception` carrying its `args` tuple. -/
inductive PyExc where
  | executeError (messages : String)
  | exception (args : List String)
deriving DecidableEq

/-- Lines 128-131, the two except clauses applied to a raised exception:
`none` means the handler printed and `create_watershed` returns normally;
`some e` means the handler itself raised `e`.  The handler for `Exception`
evaluates `e.args[0]`, which on an empty `args` tuple raises
`IndexError("tuple index out of range")`, an exception not caught by the
already-entered handler. -/
def handle_except : PyExc → Option PyExc
  | .executeError _ => none
  | .exception args =>
      match args with
      | _ :: _ => none
      | [] => some (.exception ["tuple index out of range"])

/-- Outcome of a `create_watershed` call whose body raised `bodyFailure`
(or `none` when the body ran to completion): `none` when the call returns
normally, `some e` when exception `e` propagates to the caller. -/
def create_watershed_outcome (bodyFailure : Option PyExc) : Option PyExc :=
  match bodyFailure with
  | none => none
  | some e => handle_except e

/-- Bool classifier: mosaic events (step 0). -/
def Event.isMosaic : Event → Bool
  | .mosaicToNewRaster .. => true
  | _ => false

/-- Bool classifier: fill events (step 1). -/
def Event.isFill : Event → Bool
  | .fill .. => true
  | _ => false

/-- Bool classifier: flow direction events (step 2). -/
def Event.isFlowDirection : Event → Bool
  | .flowDirection .. => true
  | _ => false

/-- Bool classifier: flow accumulation events (step 3). -/
def Event.isFlowAccumulation : Event → Bool
  | .flowAccumulation .. => true
  | _ => false

/-- Bool classifier: raster calculator events (step 4). -/
def Event.isRasterCalculator : Event → Bool
  | .rasterCalculatorGreater .. => true
  | _ => false

/-- Bool classifier: feature class creation (start of step 5). -/
def Event.isCreateFeatureclass : Event → Bool
  | .createFeatureclass .. => true
  | _ => false

/-- Bool classifier: the per-pour-point operations of the loop of step 5. -/
def Event.isPourPointOp : Event → Bool
  | .point .. => true
  | .pointGeometry .. => true
  | .describe .. => true
  | .snapPourPoint .. => true
  | .watershed .. => true
  | .rasterToPolygon .. => true
  | .insertRow .. => true
  | _ => false

/-- Bool classifier: describe and snap events, the two reads of the snapping
tolerance computation. -/
def Event.isDescribeOrSnap : Event → Bool
  | .describe .. => true
  | .snapPourPoint .. => true
  | _ => false

/-- Concrete environment for witnesses: a grid with a depth-one subdirectory
`A` holding raster `r1` and a depth-two subdirectory `A/A1` holding raster
`r2`, a pre-existing geodatabase holding `old`, and cell height 30. -/
def envW : Env :=
  { gridTree := .node []
      [("A", .node [{ name := "r1", rtype := "GRID" }]
        [("A1", .node [{ name := "r2", rtype := "GRID" }] [])])],
    gdb0 := some ["old"],
    childMeanCellHeights := fun _ => [30] }


/-- Checker for the path-derivation property: raster-op outputs are the
concatenations combined+_fill, combined+_fd, combined+_fa, combined+_stream,
and the loop outputs are snapped+stname and shed+stname for a coordinate name
of the input list. -/
def outputPathsOK (combined : String) (names : List String) : Event → Bool
  | .fill _ out => out == combined ++ "_fill"
  | .flowDirection _ out => out == combined ++ "_fd"
  | .flowAccumulation _ out => out == combined ++ "_fa"
  | .rasterCalculatorGreater _ _ out => out == combined ++ "_stream"
  | .snapPourPoint _ _ out => decide (out ∈ names.map (fun s => "snapped" ++ s))
  | .rasterToPolygon out => decide (out ∈ names.map (fun s => "shed" ++ s))
  | _ => true

/-- Checker: every insertRow event uses spatial reference code k. -/
def insertSridIs (k : Nat) : Event → Bool
  | .insertRow _ _ _ s => s == k
  | _ => true

/-! Helper lemmas shared by the claim theorems. -/

theorem watershedLoop_eq_flatMap (env : Env) (combined : String) (st : Int) (cs : List Coord) :
    watershedLoop env combined st cs = cs.flatMap (shedIteration env combined st) := by
  induction cs with
  | nil => rfl
  | cons c rest ih => simp [watershedLoop, ih]

theorem watershedLoop_any_false (env : Env) (combined : String) (st : Int) (p : Event → Bool)
    (h : ∀ c, (shedIteration env combined st c).any p = false) (cs : List Coord) :
    (watershedLoop env combined st cs).any p = false := by
  induction cs with
  | nil => rfl
  | cons c rest ih => simp [watershedLoop, List.any_append, ih, h]

theorem watershedLoop_all (env : Env) (combined : String) (st : Int) (p : Event → Bool)
    (cs : List Coord) (h : ∀ c ∈ cs, (shedIteration env combined st c).all p = true) :
    (watershedLoop env combined st cs).all p = true := by
  induction cs with
  | nil => rfl
  | cons c rest ih =>
      simp only [watershedLoop, List.all_append, Bool.and_eq_true]
      exact ⟨h c (by simp), ih fun d hd => h d (by simp [hd])⟩

theorem watershedLoop_filter (env : Env) (combined : String) (st : Int) (p : Event → Bool)
    (f : Coord → List Event) (h : ∀ c, (shedIteration env combined st c).filter p = f c)
    (cs : List Coord) :
    (watershedLoop env combined st cs).filter p = cs.flatMap f := by
  induction cs with
  | nil => rfl
  | cons c rest ih => simp [watershedLoop, List.filter_append, ih, h]

theorem any_ite_nil (c : Prop) [Decidable c] (A : List Event) (p : Event → Bool) :
    (if c then A else []).any p = (decide c && A.any p) := by
  by_cases h : c <;> simp [h]

theorem all_ite_nil (c : Prop) [Decidable c] (A : List Event) (p : Event → Bool) :
    (if c then A else []).all p = (!decide c || A.all p) := by
  by_cases h : c <;> simp [h]

theorem filter_ite_nil (c : Prop) [Decidable c] (A : List Event) (p : Event → Bool)
    (h : A.filter p = []) : (if c then A else []).filter p = [] := by
  by_cases hc : c <;> simp [hc, h]

theorem combine_rasters_any (env : Env) (g pf og tr mn : String) (p : Event → Bool) :
    (combine_rasters env g pf og tr mn).any p =
      ((env.gdb0.isSome && p (.deleteManagement (pathJoin pf og))) ||
       (p (.createFileGDB pf og) ||
        p (.mosaicToNewRaster (rasters_to_add tr g env.gridTree) (pathJoin pf og) mn 1
            "32_BIT_FLOAT" "LAST" sr_p))) := by
  cases hg : env.gdb0 <;> simp [combine_rasters, hg]

theorem combine_rasters_all (env : Env) (g pf og tr mn : String) (p : Event → Bool) :
    (combine_rasters env g pf og tr mn).all p =
      ((!env.gdb0.isSome || p (.deleteManagement (pathJoin pf og))) &&
       (p (.createFileGDB pf og) &&
        p (.mosaicToNewRaster (rasters_to_add tr g env.gridTree) (pathJoin pf og) mn 1
            "32_BIT_FLOAT" "LAST" sr_p))) := by
  cases hg : env.gdb0 <;> simp [combine_rasters, hg]

/-- C2: for every stage value n in 0..5 (proved here for every integer n),
step 0 (combine), step 1 (fill), step 2 (flow direction), step 3 (flow
accumulation) and step 4 (stream creation) execute exactly when their index is
at least n, and step 5 (per-point snapping and watershed building) executes
for every value of stage. -/
theorem stage_skip_mechanism (env : Env) (grid : String) (coords : List Coord)
    (play_folder out_geo type_of_raster mosaic_name : String) (san st n : Int) :
    ((create_watershed env grid coords play_folder n out_geo type_of_raster mosaic_name
        san st).any Event.isMosaic = decide (n ≤ 0)) ∧
    ((create_watershed env grid coords play_folder n out_geo type_of_raster mosaic_name
        san st).any Event.isFill = decide (n ≤ 1)) ∧
    ((create_watershed env grid coords play_folder n out_geo type_of_raster mosaic_name
        san st).any Event.isFlowDirection = decide (n ≤ 2)) ∧
    ((create_watershed env grid coords play_folder n out_geo type_of_raster mosaic_name
        san st).any Event.isFlowAccumulation = decide (n ≤ 3)) ∧
    ((create_watershed env grid coords play_folder n out_geo type_of_raster mosaic_name
        san st).any Event.isRasterCalculator = decide (n ≤ 4)) ∧
    ((create_watershed env grid coords play_folder n out_geo type_of_raster mosaic_name
        san st).any Event.isCreateFeatureclass = true) := by
  have hM : (watershedLoop env (pathJoin (pathJoin play_folder out_geo) mosaic_name) st
      coords).any Event.isMosaic = false := by
    apply watershedLoop_any_false; intro c; rfl
  have hF : (watershedLoop env (pathJoin (pathJoin play_folder out_geo) mosaic_name) st
      coords).any Event.isFill = false := by
    apply watershedLoop_any_false; intro c; rfl
  have hD : (watershedLoop env (pathJoin (pathJoin play_folder out_geo) mosaic_name) st
      coords).any Event.isFlowDirection = false := by
    apply watershedLoop_any_false; intro c; rfl
  have hA : (watershedLoop env (pathJoin (pathJoin play_folder out_geo) mosaic_name) st
      coords).any Event.isFlowAccumulation = false := by
    apply watershedLoop_any_false; intro c; rfl
  have hR : (watershedLoop env (pathJoin (pathJoin play_folder out_geo) mosaic_name) st
      coords).any Event.isRasterCalculator = false := by
    apply watershedLoop_any_false; intro c; rfl
  refine ⟨?_, ?_, ?_, ?_, ?_, ?_⟩ <;>
    simp only [create_watershed, List.any_append, any_ite_nil, combine_rasters_any,
      List.any_cons, List.any_nil, Event.isMosaic, Event.isFill, Event.isFlowDirection,
      Event.isFlowAccumulation, Event.isRasterCalculator, Event.isCreateFeatureclass,
      hM, hF, hD, hA, hR,
      Bool.or_false, Bool.false_or, Bool.and_false, Bool.and_true, Bool.or_true,
      Bool.true_or, Bool.false_and, Bool.true_and] <;>
    first
      | rfl
      | exact decide_eq_decide.mpr (by omega)

/-- C4: with stage = 0 the six operations run in the fixed order combine,
fill, flow direction, flow accumulation, stream threshold, per-point
snap/delineate, each consuming the saved output of the previous stage: Fill
reads the mosaic named mosaic_name, FlowDirection reads combined_fill,
FlowAccumulation reads combined_fd, the pour-point snapping reads combined_fa,
and Watershed reads combined_fd together with the snapped pour-point
raster. -/
theorem pipeline_order_stage0 (env : Env) (grid : String) (coords : List Coord)
    (play_folder out_geo type_of_raster mosaic_name : String) (san st : Int) :
    create_watershed env grid coords play_folder 0 out_geo type_of_raster mosaic_name san st =
      [Event.setWorkspace (pathJoin play_folder out_geo),
       Event.checkOutExtension "Spatial"] ++
      combine_rasters env grid play_folder out_geo type_of_raster mosaic_name ++
      [Event.fill mosaic_name
         (pathJoin (pathJoin play_folder out_geo) mosaic_name ++ "_fill"),
       Event.flowDirection
         (pathJoin (pathJoin play_folder out_geo) mosaic_name ++ "_fill")
         (pathJoin (pathJoin play_folder out_geo) mosaic_name ++ "_fd"),
       Event.flowAccumulation
         (pathJoin (pathJoin play_folder out_geo) mosaic_name ++ "_fd")
         (pathJoin (pathJoin play_folder out_geo) mosaic_name ++ "_fa"),
       Event.rasterCalculatorGreater "combine_fa" san
         (pathJoin (pathJoin play_folder out_geo) mosaic_name ++ "_stream"),
       Event.createFeatureclass (pathJoin play_folder out_geo) "points" "MULTIPOINT" sr_p,
       Event.addField "points" "name" "TEXT"] ++
      coords.flatMap (fun c =>
        [Event.point c.lng c.lat,
         Event.pointGeometry c.lng c.lat sr,
         Event.describe (pathJoin (pathJoin play_folder out_geo) mosaic_name ++ "_fa"),
         Event.snapPourPoint (pathJoin (pathJoin play_folder out_geo) mosaic_name ++ "_fa")
           (firstChildMeanCellHeight env
             (pathJoin (pathJoin play_folder out_geo) mosaic_name ++ "_fa") * st)
           ("snapped" ++ c.stname),
         Event.watershed (pathJoin (pathJoin play_folder out_geo) mosaic_name ++ "_fd")
           ("snapped" ++ c.stname),
         Event.rasterToPolygon ("shed" ++ c.stname),
         Event.insertRow c.stname c.lng c.lat sr]) := by
  norm_num [create_watershed, watershedLoop_eq_flatMap, shedIteration]
  congr 1

/-- C5: for every stage, the pour-point operations of the trace are exactly,
in list order of the coordinates, one block per coordinate: build the point
from (lng, lat), wrap it with spatial reference sr, describe the flow
accumulation raster, snap the point to it saving the result as
snapped+stname, delineate the watershed from the flow direction raster and
the snapped raster, convert it to the polygon class shed+stname, and insert
the named point; every entry of the list is processed. -/
theorem per_point_processing (env : Env) (grid : String) (coords : List Coord)
    (play_folder : String) (stage : Int) (out_geo type_of_raster mosaic_name : String)
    (san st : Int) :
    (create_watershed env grid coords play_folder stage out_geo type_of_raster mosaic_name
        san st).filter Event.isPourPointOp =
      coords.flatMap (fun c =>
        [Event.point c.lng c.lat,
         Event.pointGeometry c.lng c.lat sr,
         Event.describe (pathJoin (pathJoin play_folder out_geo) mosaic_name ++ "_fa"),
         Event.snapPourPoint (pathJoin (pathJoin play_folder out_geo) mosaic_name ++ "_fa")
           (firstChildMeanCellHeight env
             (pathJoin (pathJoin play_folder out_geo) mosaic_name ++ "_fa") * st)
           ("snapped" ++ c.stname),
         Event.watershed (pathJoin (pathJoin play_folder out_geo) mosaic_name ++ "_fd")
           ("snapped" ++ c.stname),
         Event.rasterToPolygon ("shed" ++ c.stname),
         Event.insertRow c.stname c.lng c.lat sr]) := by
  have hcomb : (combine_rasters env grid play_folder out_geo type_of_raster
      mosaic_name).filter Event.isPourPointOp = [] := by
    cases hg : env.gdb0 <;> simp [combine_rasters, hg, Event.isPourPointOp]
  have hloop : (watershedLoop env (pathJoin (pathJoin play_folder out_geo) mosaic_name) st
      coords).filter Event.isPourPointOp =
      coords.flatMap (fun c =>
        [Event.point c.lng c.lat,
         Event.pointGeometry c.lng c.lat sr,
         Event.describe (pathJoin (pathJoin play_folder out_geo) mosaic_name ++ "_fa"),
         Event.snapPourPoint (pathJoin (pathJoin play_folder out_geo) mosaic_name ++ "_fa")
           (firstChildMeanCellHeight env
             (pathJoin (pathJoin play_folder out_geo) mosaic_name ++ "_fa") * st)
           ("snapped" ++ c.stname),
         Event.watershed (pathJoin (pathJoin play_folder out_geo) mosaic_name ++ "_fd")
           ("snapped" ++ c.stname),
         Event.rasterToPolygon ("shed" ++ c.stname),
         Event.insertRow c.stname c.lng c.lat sr]) := by
    apply watershedLoop_filter; intro c; rfl
  simp only [create_watershed, List.filter_append]
  split_ifs <;> simp [hcomb, hloop, Event.isPourPointOp]

/-- C10: for every coordinate of the loop, the snapping distance handed to
SnapPourPoint is the mean cell height of the first child of the raster at
combined_fa multiplied by snapping_tolerance, and the describe of that raster
is redone on every iteration: the describe/snap events of the trace are one
describe of combined_fa immediately followed by the snap, per coordinate. -/
theorem snapping_tolerance_per_iteration (env : Env) (grid : String) (coords : List Coord)
    (play_folder : String) (stage : Int) (out_geo type_of_raster mosaic_name : String)
    (san st : Int) :
    (create_watershed env grid coords play_folder stage out_geo type_of_raster mosaic_name
        san st).filter Event.isDescribeOrSnap =
      coords.flatMap (fun c =>
        [Event.describe (pathJoin (pathJoin play_folder out_geo) mosaic_name ++ "_fa"),
         Event.snapPourPoint (pathJoin (pathJoin play_folder out_geo) mosaic_name ++ "_fa")
           (firstChildMeanCellHeight env
             (pathJoin (pathJoin play_folder out_geo) mosaic_name ++ "_fa") * st)
           ("snapped" ++ c.stname)]) := by
  have hcomb : (combine_rasters env grid play_folder out_geo type_of_raster
      mosaic_name).filter Event.isDescribeOrSnap = [] := by
    cases hg : env.gdb0 <;> simp [combine_rasters, hg, Event.isDescribeOrSnap]
  have hloop : (watershedLoop env (pathJoin (pathJoin play_folder out_geo) mosaic_name) st
      coords).filter Event.isDescribeOrSnap =
      coords.flatMap (fun c =>
        [Event.describe (pathJoin (pathJoin play_folder out_geo) mosaic_name ++ "_fa"),
         Event.snapPourPoint (pathJoin (pathJoin play_folder out_geo) mosaic_name ++ "_fa")
           (firstChildMeanCellHeight env
             (pathJoin (pathJoin play_folder out_geo) mosaic_name ++ "_fa") * st)
           ("snapped" ++ c.stname)]) := by
    apply watershedLoop_filter; intro c; rfl
  simp only [create_watershed, List.filter_append]
  split_ifs <;> simp [hcomb, hloop, Event.isDescribeOrSnap]

/-- C7: every intermediate output path is derived by string concatenation
from combined = play_folder/out_geo/mosaic_name: the filled raster is saved at
combined_fill, flow direction at combined_fd, flow accumulation at
combined_fa, the stream raster at combined_stream, and for each coordinate
the snapped raster at snapped+stname and the watershed polygons at
shed+stname in the workspace. -/
theorem output_paths_by_concatenation (env : Env) (grid : String) (coords : List Coord)
    (play_folder : String) (stage : Int) (out_geo type_of_raster mosaic_name : String)
    (san st : Int) :
    (create_watershed env grid coords play_folder stage out_geo type_of_raster mosaic_name
        san st).all
      (outputPathsOK (pathJoin (pathJoin play_folder out_geo) mosaic_name)
        (coords.map Coord.stname)) = true := by
  have hcomb : (combine_rasters env grid play_folder out_geo type_of_raster
      mosaic_name).all
      (outputPathsOK (pathJoin (pathJoin play_folder out_geo) mosaic_name)
        (coords.map Coord.stname)) = true := by
    cases hg : env.gdb0 <;> simp [combine_rasters, hg, outputPathsOK]
  have hloop : (watershedLoop env (pathJoin (pathJoin play_folder out_geo) mosaic_name) st
      coords).all
      (outputPathsOK (pathJoin (pathJoin play_folder out_geo) mosaic_name)
        (coords.map Coord.stname)) = true := by
    apply watershedLoop_all
    intro c hc
    simp [shedIteration, outputPathsOK, List.mem_map]
    exact ⟨⟨c, hc, rfl⟩, ⟨c, hc, rfl⟩⟩
  simp only [create_watershed, List.all_append]
  split_ifs <;> simp [hcomb, hloop, outputPathsOK]

/-- C9: the points feature class is created with the projected spatial
reference sr_p (EPSG 3395), every geometry inserted into it is built with the
geographic spatial reference sr (EPSG 4326), and these differ. -/
theorem points_spatial_reference_mismatch (env : Env) (grid : String) (coords : List Coord)
    (play_folder : String) (stage : Int) (out_geo type_of_raster mosaic_name : String)
    (san st : Int) :
    (Event.createFeatureclass (pathJoin play_folder out_geo) "points" "MULTIPOINT" sr_p ∈
      create_watershed env grid coords play_folder stage out_geo type_of_raster mosaic_name
        san st) ∧
    ((create_watershed env grid coords play_folder stage out_geo type_of_raster mosaic_name
        san st).all (insertSridIs sr) = true) ∧
    sr ≠ sr_p := by
  refine ⟨?_, ?_, by decide⟩
  · simp [create_watershed]
  · have hcomb : (combine_rasters env grid play_folder out_geo type_of_raster
        mosaic_name).all (insertSridIs sr) = true := by
      cases hg : env.gdb0 <;> simp [combine_rasters, hg, insertSridIs]
    have hloop : (watershedLoop env (pathJoin (pathJoin play_folder out_geo) mosaic_name) st
        coords).all (insertSridIs sr) = true := by
      apply watershedLoop_all
      intro c hc
      rfl
    simp only [create_watershed, List.all_append]
    split_ifs <;> simp [hcomb, hloop, insertSridIs]

theorem allDirRasters_eq (type_of_raster p : String) (t : DirTree) :
    allDirRasters type_of_raster p t =
      (listRasters type_of_raster t).map (fun r => pathJoin p r) ++
      allSubdirList type_of_raster p t.subdirs := by
  cases t
  rfl

theorem mem_allSubdirList (type_of_raster p : String) (l : List (String × DirTree)) (r : String) :
    r ∈ allSubdirList type_of_raster p l ↔
      ∃ x ∈ l, r ∈ allDirRasters type_of_raster (pathJoin p x.1) x.2 := by
  induction l with
  | nil => simp [allSubdirList]
  | cons x rest ih =>
      obtain ⟨n, c⟩ := x
      simp [allSubdirList, ih]

mutual

theorem mem_rasters_collected (type_of_raster : String) :
    (p : String) → (t : DirTree) → (r : String) →
    (r ∈ rasters_to_add type_of_raster p t ↔ r ∈ allSubdirRasters type_of_raster p t)
  | p, .node rs sd, r => by
      have h2 := mem_walk_contribs type_of_raster p sd r
      rw [rasters_to_add, walkDirs, List.flatMap_cons, List.mem_append, h2]
      have hR : r ∈ allSubdirRasters type_of_raster p (.node rs sd) ↔
          ∃ x ∈ sd, r ∈ allDirRasters type_of_raster (pathJoin p x.1) x.2 :=
        mem_allSubdirList type_of_raster p sd r
      rw [hR]
      constructor
      · rintro (hw | ⟨x, hx, hr⟩)
        · simp only [walkContrib, DirTree.subdirs, List.mem_flatMap] at hw
          obtain ⟨x, hx, hr⟩ := hw
          refine ⟨x, hx, ?_⟩
          rw [allDirRasters_eq, List.mem_append]
          exact Or.inl hr
        · refine ⟨x, hx, ?_⟩
          rw [allDirRasters_eq, List.mem_append]
          exact Or.inr hr
      · rintro ⟨x, hx, hr⟩
        rw [allDirRasters_eq, List.mem_append] at hr
        rcases hr with h | h
        · left
          simp only [walkContrib, DirTree.subdirs, List.mem_flatMap]
          exact ⟨x, hx, h⟩
        · right
          exact ⟨x, hx, h⟩

theorem mem_walk_contribs (type_of_raster : String) :
    (p : String) → (l : List (String × DirTree)) → (r : String) →
    (r ∈ (walkSubdirs p l).flatMap (walkContrib type_of_raster) ↔
      ∃ x ∈ l, r ∈ allSubdirRasters type_of_raster (pathJoin p x.1) x.2)
  | p, [], r => by simp [walkSubdirs]
  | p, (n, c) :: rest, r => by
      have h1 : r ∈ (walkDirs (pathJoin p n) c).flatMap (walkContrib type_of_raster) ↔
          r ∈ allSubdirRasters type_of_raster (pathJoin p n) c :=
        mem_rasters_collected type_of_raster (pathJoin p n) c r
      have h2 := mem_walk_contribs type_of_raster p rest r
      rw [walkSubdirs, List.flatMap_append, List.mem_append, h1, h2]
      constructor
      · rintro (h | ⟨x, hx, hr⟩)
        · exact ⟨(n, c), List.mem_cons_self _ _, h⟩
        · exact ⟨x, List.mem_cons_of_mem _ hx, hr⟩
      · rintro ⟨x, hx, hr⟩
        rcases List.mem_cons.mp hx with hx1 | hx2
        · subst hx1
          exact Or.inl hr
        · exact Or.inr ⟨x, hx2, hr⟩

end

/-- C6: when stage is below 1, the run creates the file geodatabase out_geo in
play_folder and mosaics into it, under mosaic_name, exactly the rasters of
type type_of_raster collected by the recursive walk of the grid folder; a
raster is collected iff it lies in some subdirectory of the grid folder at any
depth, so the mosaic merges all tiles found, not only those in immediate
subfolders. -/
theorem combine_collects_every_subdir_raster (env : Env) (grid : String) (coords : List Coord)
    (play_folder out_geo type_of_raster mosaic_name : String) (san st stage : Int)
    (h : stage < 1) :
    (Event.createFileGDB play_folder out_geo ∈
      create_watershed env grid coords play_folder stage out_geo type_of_raster mosaic_name
        san st) ∧
    (Event.mosaicToNewRaster (rasters_to_add type_of_raster grid env.gridTree)
        (pathJoin play_folder out_geo) mosaic_name 1 "32_BIT_FLOAT" "LAST" sr_p ∈
      create_watershed env grid coords play_folder stage out_geo type_of_raster mosaic_name
        san st) ∧
    (rasters_to_add type_of_raster grid env.gridTree).toFinset =
      (allSubdirRasters type_of_raster grid env.gridTree).toFinset := by
  refine ⟨?_, ?_, ?_⟩
  · simp [create_watershed, combine_rasters, h]
  · simp [create_watershed, combine_rasters, h]
  · ext r
    simp only [List.mem_toFinset]
    exact mem_rasters_collected type_of_raster grid env.gridTree r

/-- C8: whenever combine_rasters runs (stage below 1) and a file geodatabase
named out_geo already exists in play_folder, it is deleted before a fresh one
is created: the combine trace is delete, create, mosaic in that order, and
the resulting geodatabase content listing is exactly the new mosaic, so every
raster or feature class previously stored there is destroyed. -/
theorem stage0_destroys_existing_gdb (env : Env) (grid : String) (coords : List Coord)
    (play_folder out_geo type_of_raster mosaic_name : String) (san st stage : Int)
    (prior : List String) (hst : stage < 1) (hg : env.gdb0 = some prior) :
    (combine_rasters env grid play_folder out_geo type_of_raster mosaic_name =
      [Event.deleteManagement (pathJoin play_folder out_geo),
       Event.createFileGDB play_folder out_geo,
       Event.mosaicToNewRaster (rasters_to_add type_of_raster grid env.gridTree)
         (pathJoin play_folder out_geo) mosaic_name 1 "32_BIT_FLOAT" "LAST" sr_p]) ∧
    (Event.deleteManagement (pathJoin play_folder out_geo) ∈
      create_watershed env grid coords play_folder stage out_geo type_of_raster mosaic_name
        san st) ∧
    combine_rasters_gdb env.gdb0 mosaic_name = some [mosaic_name] := by
  refine ⟨?_, ?_, ?_⟩
  · simp [combine_rasters, hg]
  · simp [create_watershed, hst, combine_rasters, hg]
  · simp [combine_rasters_gdb, hg]

/-- Witness for C8 at a concrete run: stage 0 with a pre-existing geodatabase
holding the dataset old. -/
theorem stage0_destroys_existing_gdb_witness :
    ((0 : Int) < 1 ∧ envW.gdb0 = some ["old"]) ∧
    ((combine_rasters envW "g" "p" "merge.gdb" "GRID" "combine" =
        [Event.deleteManagement (pathJoin "p" "merge.gdb"),
         Event.createFileGDB "p" "merge.gdb",
         Event.mosaicToNewRaster (rasters_to_add "GRID" "g" envW.gridTree)
           (pathJoin "p" "merge.gdb") "combine" 1 "32_BIT_FLOAT" "LAST" sr_p]) ∧
      (Event.deleteManagement (pathJoin "p" "merge.gdb") ∈
        create_watershed envW "g" [] "p" 0 "merge.gdb" "GRID" "combine" 5000 2) ∧
      combine_rasters_gdb envW.gdb0 "combine" = some ["combine"]) :=
  ⟨⟨by decide, rfl⟩,
    stage0_destroys_existing_gdb envW "g" [] "p" "merge.gdb" "GRID" "combine" 5000 2 0
      ["old"] (by decide) rfl⟩

/-- Witness for C6 at a concrete run: stage 0 over the grid of envW, which
has a raster in an immediate subdirectory and another one two levels deep. -/
theorem combine_collects_every_subdir_raster_witness :
    ((0 : Int) < 1) ∧
    ((Event.createFileGDB "p" "merge.gdb" ∈
        create_watershed envW "g" [] "p" 0 "merge.gdb" "GRID" "combine" 5000 2) ∧
      (Event.mosaicToNewRaster (rasters_to_add "GRID" "g" envW.gridTree)
          (pathJoin "p" "merge.gdb") "combine" 1 "32_BIT_FLOAT" "LAST" sr_p ∈
        create_watershed envW "g" [] "p" 0 "merge.gdb" "GRID" "combine" 5000 2) ∧
      (rasters_to_add "GRID" "g" envW.gridTree).toFinset =
        (allSubdirRasters "GRID" "g" envW.gridTree).toFinset) :=
  ⟨by decide,
    combine_collects_every_subdir_raster envW "g" [] "p" "merge.gdb" "GRID" "combine"
      5000 2 0 (by decide)⟩

/-- C3 counterexample: the claim that create_watershed never propagates an
exception fails at a body that raises an Exception whose args tuple is empty;
the handler evaluates e.args[0], and the resulting IndexError propagates to
the caller. -/
theorem empty_args_exception_escapes :
    create_watershed_outcome (some (.exception [])) ≠ none := by decide

/-- C3 amended: create_watershed returns normally whenever the body either
runs to completion or raises an arcpy.ExecuteError (messages printed) or any
Exception carrying at least one argument (first argument printed); only an
Exception with an empty args tuple makes the handler itself raise. -/
theorem returns_normally_unless_empty_args (bodyFailure : Option PyExc)
    (h : bodyFailure ≠ some (.exception [])) :
    create_watershed_outcome bodyFailure = none := by
  cases bodyFailure with
  | none => rfl
  | some e =>
      cases e with
      | executeError m => rfl
      | exception args =>
          cases args with
          | nil => exact absurd rfl h
          | cons a rest => rfl

/-- Witness for the amended C3 at a concrete body failure, an ExecuteError. -/
theorem returns_normally_unless_empty_args_witness :
    (some (PyExc.executeError "err") : Option PyExc) ≠ some (.exception []) ∧
    create_watershed_outcome (some (.executeError "err")) = none :=
  ⟨by decide, returns_normally_unless_empty_args _ (by decide)⟩

/-- C1 (code bug): with mosaic_name = dem the stream step writes to
dem_stream, but the raster-calculator expression of line 93 references the
string literal combine_fa, not the flow accumulation raster dem_fa that the
run itself saved in the same workspace; the stream raster is a threshold of
the flow accumulation output of the run only when mosaic_name is the default
combine. -/
theorem stream_step_reads_hardcoded_combine_fa :
    (Event.rasterCalculatorGreater "combine_fa" 5000 "p/merge.gdb/dem_stream" ∈
      create_watershed envW "g" [] "p" 0 "merge.gdb" "GRID" "dem" 5000 2) ∧
    (Event.flowAccumulation "p/merge.gdb/dem_fd" "p/merge.gdb/dem_fa" ∈
      create_watershed envW "g" [] "p" 0 "merge.gdb" "GRID" "dem" 5000 2) ∧
    "dem" ++ "_fa" ≠ "combine_fa" := by decide
